import Mathlib

/-!
Shallow embedding of `src/chatbot.py`: a console chatbot that moderates both
the user input and the model reply, records flagged content to a git
repository, and loops until an exit keyword or a completion-service failure.
External services (moderation endpoint, chat completion, git subprocesses,
console, clock) are modelled as oracle values supplied per call; every
observable action of the program is recorded in an event trace.
-/

namespace Chatbot

/-- Embedding of the Python string method `lower()` (ASCII case folding,
character by character). -/
def pyLower (s : String) : String := ⟨s.data.map Char.toLower⟩

/-- Embedding of the Python string method `strip()` with no argument:
remove leading and trailing whitespace. -/
def pyStrip (s : String) : String :=
  ⟨((s.data.dropWhile Char.isWhitespace).reverse.dropWhile
      Char.isWhitespace).reverse⟩

/-- A chat message, mirroring the role/content dicts appended to `messages`
in `run_chatbot`. -/
structure Message where
  role : String
  content : String
deriving DecidableEq

/-- Outcome of one call to the external moderation endpoint
(`client.moderations.create`): either a successful classification carrying
the flagged bit of `response.results[0].flagged`, or a raised exception
(network error, unparseable response, any service-side exception) carrying
the exception text. -/
inductive ModResult where
  | ok (flagged : Bool)
  | raised (msg : String)
deriving DecidableEq

/-- Outcome of one `subprocess.run([...], check=True)` git step: success, or
a raised `CalledProcessError` carrying its text. -/
inductive GitOutcome where
  | ok
  | raised (msg : String)
deriving DecidableEq

/-- Outcome of one call to `client.chat.completions.create`: the reply
content `response.choices[0].message.content`, or a raised exception
carrying the exception text. -/
inductive CompletionResult where
  | reply (content : String)
  | raised (msg : String)
deriving DecidableEq

/-- One observable action of the program, in the order the source performs
them: reading a console prompt (`input("User: ")`), printing a console line,
printing a clean assistant reply to the user (the final print of the reply
prefixed with the assistant label), issuing a moderation request, issuing a chat
completion request with the current message list, writing an artifact file,
and running one git subprocess step (with its success bit). -/
inductive Event where
  | promptRead (s : String)
  | consolePrint (s : String)
  | displayReply (s : String)
  | moderationRequest (text : String)
  | completionRequest (msgs : List Message)
  | artifactWrite (filename : String) (content : String)
  | gitRun (args : List String) (ok : Bool)
deriving DecidableEq

/-- Embedding of `moderate_text(client, text)`: one moderation request; on
success the flagged verdict is returned unmodified, on any exception the
error is printed and the function returns `True`. The result pairs the
returned flagged bit with the events of the call. -/
def moderate_text (text : String) (service : ModResult) : Bool × List Event :=
  match service with
  | .ok flagged => (flagged, [Event.moderationRequest text])
  | .raised e =>
      (true, [Event.moderationRequest text,
              Event.consolePrint ("Moderation API error: " ++ e)])

/-- Oracle values consumed by one call to `record_flagged_content`: the
formatted timestamp string `datetime.now().strftime("%Y%m%d_%H%M%S")` and
the outcome of each of the three git steps (add, commit, push). -/
structure RecordEnv where
  timestamp : String
  addRes : GitOutcome
  commitRes : GitOutcome
  pushRes : GitOutcome
deriving DecidableEq

/-- The artifact filename built from the formatted timestamp. -/
def flaggedFileName (timestamp : String) : String :=
  "flagged_event_" ++ timestamp ++ ".txt"

/-- The artifact contents written by `record_flagged_content`. -/
def flaggedFileContent (timestamp offending_text : String) : String :=
  "Flagged content detected at " ++ timestamp ++ "\nOffending text:\n"
    ++ offending_text ++ "\n"

/-- Embedding of `record_flagged_content(offending_text)`: write the
artifact file, then stage, commit and push it; a `CalledProcessError` at any
step aborts the remaining steps and prints an error, a full success prints a
confirmation. Returns the events of the call (it raises nothing to the
caller). -/
def record_flagged_content (offending_text : String) (env : RecordEnv) :
    List Event :=
  let filename := flaggedFileName env.timestamp
  Event.artifactWrite filename (flaggedFileContent env.timestamp offending_text) ::
  match env.addRes with
  | .raised e =>
      [Event.gitRun ["git", "add", filename] false,
       Event.consolePrint ("Error pushing flagged content file: " ++ e)]
  | .ok =>
      Event.gitRun ["git", "add", filename] true ::
      match env.commitRes with
      | .raised e =>
          [Event.gitRun ["git", "commit", "-m",
             "Add flagged content file " ++ filename] false,
           Event.consolePrint ("Error pushing flagged content file: " ++ e)]
      | .ok =>
          Event.gitRun ["git", "commit", "-m",
            "Add flagged content file " ++ filename] true ::
          match env.pushRes with
          | .raised e =>
              [Event.gitRun ["git", "push", "origin", "main"] false,
               Event.consolePrint ("Error pushing flagged content file: " ++ e)]
          | .ok =>
              [Event.gitRun ["git", "push", "origin", "main"] true,
               Event.consolePrint ("Pushed flagged file " ++ filename
                 ++ " to repo, triggering CircleCI pipeline.")]

/-- Oracle values consumed by one iteration of the `while True` loop: the
moderation outcome for the user input, the record oracle used if the input
is flagged, the completion-service outcome, the moderation outcome for the
reply, and the record oracle used if the reply is flagged. Fields of
branches not taken are simply unused. -/
structure TurnEnv where
  userMod : ModResult
  userRecord : RecordEnv
  completion : CompletionResult
  replyMod : ModResult
  replyRecord : RecordEnv
deriving DecidableEq

/-- How one loop iteration ends: `exited` for the exit-keyword `break`,
`continued` for reaching the bottom of the loop body or the flagged-input
`continue`, `fatal` for the `break` in the completion `except` handler. -/
inductive TurnOutcome where
  | exited
  | continued
  | fatal
deriving DecidableEq

/-- Result of one loop iteration: how it ended, the message history after
it, and the events it performed in order. -/
structure TurnResult where
  outcome : TurnOutcome
  messages : List Message
  events : List Event
deriving DecidableEq

/-- The exit test `user_input.lower() in ["exit", "quit"]`. -/
def isExitCommand (s : String) : Bool :=
  pyLower s = "exit" || pyLower s = "quit"

/-- The seed system message of `run_chatbot`. -/
def systemPreamble : Message :=
  ⟨"system", "You are a helpful assistant specialized in technology topics."⟩

/-- The initial history: only the system preamble. -/
def initialMessages : List Message := [systemPreamble]

/-- The fixed placeholder appended in place of a flagged assistant reply. -/
def blockedPlaceholder : Message := ⟨"assistant", "[Blocked content]"⟩

/-- Embedding of one iteration of the `while True` loop of `run_chatbot`,
given the current history, the line read by `input("User: ")`, and the
oracle outcomes of the external calls this iteration may make. -/
def chatbotStep (messages : List Message) (user_input : String)
    (env : TurnEnv) : TurnResult :=
  if isExitCommand user_input then
    ⟨.exited, messages,
      [Event.promptRead user_input, Event.consolePrint "Assistant: Goodbye!"]⟩
  else
    let userCheck := moderate_text user_input env.userMod
    if userCheck.fst then
      ⟨.continued, messages,
        Event.promptRead user_input :: userCheck.snd ++
          Event.consolePrint
              "Assistant: [User content flagged by moderation. Not processed.]" ::
            record_flagged_content user_input env.userRecord⟩
    else
      let messages1 := messages ++ [⟨"user", user_input⟩]
      match env.completion with
      | .raised e =>
          ⟨.fatal, messages1,
            Event.promptRead user_input :: userCheck.snd ++
              [Event.completionRequest messages1,
               Event.consolePrint ("Error: " ++ e)]⟩
      | .reply raw =>
          let assistant_reply := pyStrip raw
          let replyCheck := moderate_text assistant_reply env.replyMod
          if replyCheck.fst then
            ⟨.continued, messages1 ++ [blockedPlaceholder],
              Event.promptRead user_input :: userCheck.snd ++
                Event.completionRequest messages1 :: replyCheck.snd ++
                  Event.consolePrint
                      "Assistant: [Model output flagged by moderation. Not displayed.]" ::
                    record_flagged_content assistant_reply env.replyRecord⟩
          else
            ⟨.continued, messages1 ++ [⟨"assistant", assistant_reply⟩],
              Event.promptRead user_input :: userCheck.snd ++
                Event.completionRequest messages1 :: replyCheck.snd ++
                  [Event.displayReply assistant_reply]⟩

/-- One executed loop iteration of a session: the history before it, the
input line, the oracle values, and the resulting `TurnResult`. -/
structure TurnRecord where
  preMessages : List Message
  input : String
  env : TurnEnv
  result : TurnResult
deriving DecidableEq

/-- The sequence of loop iterations actually executed when the session is
driven by a finite script of input lines and per-iteration oracles; the
sequence stops after an iteration that breaks the loop. -/
def sessionTrace : List Message → List (String × TurnEnv) → List TurnRecord
  | _, [] => []
  | msgs, (u, env) :: rest =>
      let r := chatbotStep msgs u env
      ⟨msgs, u, env, r⟩ ::
        match r.outcome with
        | .continued => sessionTrace r.messages rest
        | _ => []

/-- How a scripted session run ends: the exit-keyword `break`, the
completion-failure `break`, or the script ran out with the loop still
awaiting input. -/
inductive SessionEnd where
  | exited
  | fatal
  | outOfScript
deriving DecidableEq

/-- Embedding of the `while True` loop of `run_chatbot` driven by a finite
script: returns how the run ended, the final history, and the concatenated
event trace. -/
def run_chatbot_loop : List Message → List (String × TurnEnv) →
    SessionEnd × List Message × List Event
  | msgs, [] => (.outOfScript, msgs, [])
  | msgs, (u, env) :: rest =>
      let r := chatbotStep msgs u env
      match r.outcome with
      | .exited => (.exited, r.messages, r.events)
      | .fatal => (.fatal, r.messages, r.events)
      | .continued =>
          let tail := run_chatbot_loop r.messages rest
          (tail.fst, tail.snd.fst, r.events ++ tail.snd.snd)

/-- Embedding of `run_chatbot()` from the start of the loop, with the
history seeded with the system preamble. -/
def run_chatbot (script : List (String × TurnEnv)) :
    SessionEnd × List Message × List Event :=
  run_chatbot_loop initialMessages script

/-- Recognizes artifact-file writes in a trace. -/
def isArtifactWrite : Event → Bool
  | .artifactWrite _ _ => true
  | _ => false

/-- Recognizes the start of a publish attempt: the `git add` staging step. -/
def isStageAttempt : Event → Bool
  | .gitRun ("git" :: "add" :: _) _ => true
  | _ => false

/-- Recognizes console prompt reads in a trace. -/
def isPromptRead : Event → Bool
  | .promptRead _ => true
  | _ => false

/-- Recognizes completion-service requests in a trace. -/
def isCompletionRequest : Event → Bool
  | .completionRequest _ => true
  | _ => false

/-- Number of events of a given kind in a trace. -/
def countEvents (p : Event → Bool) (evs : List Event) : Nat :=
  (evs.filter p).length

/-- Number of flagged moderation verdicts produced during one loop
iteration, following the control flow of the source: none on an exit
command, one if the user input is flagged, otherwise none if the completion
call fails, and one exactly if the (stripped) reply is flagged. -/
def turnFlaggedVerdicts (u : String) (env : TurnEnv) : Nat :=
  if isExitCommand u then 0
  else if (moderate_text u env.userMod).fst then 1
  else
    match env.completion with
    | .raised _ => 0
    | .reply raw => if (moderate_text (pyStrip raw) env.replyMod).fst then 1 else 0

/-- Number of flagged moderation verdicts produced during a whole scripted
session. -/
def sessionFlaggedVerdicts (script : List (String × TurnEnv)) : Nat :=
  ((sessionTrace initialMessages script).map
    (fun t => turnFlaggedVerdicts t.input t.env)).sum

/-- A record oracle with all three git steps succeeding, used by concrete
witnesses. -/
def wRecordOk : RecordEnv := ⟨"20260101_120000", .ok, .ok, .ok⟩

/-- A record oracle whose staging step raises, used by concrete witnesses. -/
def wRecordAddFail : RecordEnv :=
  ⟨"20260101_120000", .raised "exit status 1", .ok, .ok⟩

/-- A turn oracle where the user input is flagged. -/
def envUserFlagged : TurnEnv :=
  ⟨.ok true, wRecordOk, .reply "unused", .ok false, wRecordOk⟩

/-- A turn oracle where both verdicts are clean. -/
def envClean : TurnEnv :=
  ⟨.ok false, wRecordOk, .reply "  a reply  ", .ok false, wRecordOk⟩

/-- A turn oracle where the reply is flagged. -/
def envReplyFlagged : TurnEnv :=
  ⟨.ok false, wRecordOk, .reply "bad reply", .ok true, wRecordOk⟩

/-- A turn oracle where the completion call raises. -/
def envCompletionFail : TurnEnv :=
  ⟨.ok false, wRecordOk, .raised "boom", .ok false, wRecordOk⟩

/-- A turn oracle where the user input is flagged and the publish attempt
fails at the staging step. -/
def envPublishFail : TurnEnv :=
  ⟨.ok true, wRecordAddFail, .reply "unused", .ok false, wRecordOk⟩

theorem countEvents_nil (p : Event → Bool) : countEvents p [] = 0 := rfl

theorem countEvents_cons (p : Event → Bool) (e : Event) (l : List Event) :
    countEvents p (e :: l) = (if p e then 1 else 0) + countEvents p l := by
  simp only [countEvents, List.filter_cons]
  split <;> simp [Nat.add_comm]

theorem countEvents_append (p : Event → Bool) (l₁ l₂ : List Event) :
    countEvents p (l₁ ++ l₂) = countEvents p l₁ + countEvents p l₂ := by
  simp [countEvents, List.filter_append]

theorem notMem_moderate_completionRequest (text : String) (m : ModResult)
    (ms : List Message) :
    Event.completionRequest ms ∉ (moderate_text text m).snd := by
  cases m <;> simp [moderate_text]

theorem notMem_moderate_displayReply (text : String) (m : ModResult)
    (s : String) :
    Event.displayReply s ∉ (moderate_text text m).snd := by
  cases m <;> simp [moderate_text]

theorem notMem_record_completionRequest (text : String) (renv : RecordEnv)
    (ms : List Message) :
    Event.completionRequest ms ∉ record_flagged_content text renv := by
  obtain ⟨ts, a, c, p⟩ := renv
  cases a <;> cases c <;> cases p <;> simp [record_flagged_content]

theorem notMem_record_displayReply (text : String) (renv : RecordEnv)
    (s : String) :
    Event.displayReply s ∉ record_flagged_content text renv := by
  obtain ⟨ts, a, c, p⟩ := renv
  cases a <;> cases c <;> cases p <;> simp [record_flagged_content]

theorem count_record_artifact (text : String) (renv : RecordEnv) :
    countEvents isArtifactWrite (record_flagged_content text renv) = 1 := by
  obtain ⟨ts, a, c, p⟩ := renv
  cases a <;> cases c <;> cases p <;>
    simp [record_flagged_content, countEvents, isArtifactWrite]

theorem count_record_stage (text : String) (renv : RecordEnv) :
    countEvents isStageAttempt (record_flagged_content text renv) = 1 := by
  obtain ⟨ts, a, c, p⟩ := renv
  cases a <;> cases c <;> cases p <;>
    simp [record_flagged_content, countEvents, isStageAttempt]

theorem count_moderate_artifact (text : String) (m : ModResult) :
    countEvents isArtifactWrite (moderate_text text m).snd = 0 := by
  cases m <;> simp [moderate_text, countEvents, isArtifactWrite]

theorem count_moderate_stage (text : String) (m : ModResult) :
    countEvents isStageAttempt (moderate_text text m).snd = 0 := by
  cases m <;> simp [moderate_text, countEvents, isStageAttempt]

theorem count_moderate_prompt (text : String) (m : ModResult) :
    countEvents isPromptRead (moderate_text text m).snd = 0 := by
  cases m <;> simp [moderate_text, countEvents, isPromptRead]

theorem notMem_moderate_artifactWrite (text : String) (m : ModResult)
    (n c : String) :
    Event.artifactWrite n c ∉ (moderate_text text m).snd := by
  cases m <;> simp [moderate_text]

theorem mem_moderate_self (text : String) (m : ModResult) :
    Event.moderationRequest text ∈ (moderate_text text m).snd := by
  cases m <;> simp [moderate_text]

theorem sessionTrace_result (script : List (String × TurnEnv)) :
    ∀ (msgs : List Message) (t : TurnRecord),
      t ∈ sessionTrace msgs script →
      t.result = chatbotStep t.preMessages t.input t.env := by
  induction script with
  | nil => intro msgs t ht; simp [sessionTrace] at ht
  | cons hd rest ih =>
      intro msgs t ht
      obtain ⟨u, env⟩ := hd
      simp only [sessionTrace] at ht
      rcases List.mem_cons.mp ht with h | h
      · subst h; rfl
      · rcases ho : (chatbotStep msgs u env).outcome with _ | _ | _ <;>
          rw [ho] at h <;> simp at h
        exact ih _ _ h

/-- C2: for every text, if the call to the external moderation service
raises any exception or its response cannot be read, `moderate_text`
returns flagged = true; when the call succeeds, it returns the flagged
verdict of the service unmodified. -/
theorem moderation_gate_fail_open (text : String) :
    (∀ msg, (moderate_text text (ModResult.raised msg)).fst = true) ∧
    (∀ flagged, (moderate_text text (ModResult.ok flagged)).fst = flagged) :=
  ⟨fun _ => rfl, fun _ => rfl⟩

/-- C9: each Recorder invocation writes exactly one artifact, a plain text
file named `flagged_event_<timestamp>.txt` after the formatted timestamp of
the event, whose content is the fixed two-line header carrying that
timestamp followed by the offending text verbatim. -/
theorem recorder_artifact_format (text : String) (renv : RecordEnv) :
    (record_flagged_content text renv).head? =
      some (Event.artifactWrite
        ("flagged_event_" ++ renv.timestamp ++ ".txt")
        ("Flagged content detected at " ++ renv.timestamp
          ++ "\nOffending text:\n" ++ text ++ "\n")) ∧
    countEvents isArtifactWrite (record_flagged_content text renv) = 1 :=
  ⟨rfl, count_record_artifact text renv⟩

/-- C8: an input whose case-insensitive form is an exit keyword ends the
session with the farewell message, no moderation request and an unchanged
history; any other input proceeds to the user moderation request. -/
theorem exit_keyword_ends_session (msgs : List Message) (u : String)
    (env : TurnEnv) :
    (isExitCommand u = true →
      chatbotStep msgs u env =
        ⟨TurnOutcome.exited, msgs,
          [Event.promptRead u, Event.consolePrint "Assistant: Goodbye!"]⟩) ∧
    (isExitCommand u = false →
      Event.moderationRequest u ∈ (chatbotStep msgs u env).events) := by
  constructor
  · intro h
    simp [chatbotStep, h]
  · intro h
    obtain ⟨um, ur, comp, rm, rr⟩ := env
    unfold chatbotStep
    rw [h]
    simp only [Bool.false_eq_true, if_false]
    split
    · simp [mem_moderate_self]
    · rcases comp with raw | e
      · dsimp only
        split <;> simp [mem_moderate_self]
      · simp [mem_moderate_self]

/-- C4: a non-exit user input that the Gate flags is announced as blocked,
recorded through `record_flagged_content` with the raw text, not appended
to History, triggers no completion request, and the turn goes back to
awaiting input. -/
theorem flagged_user_input_blocked (msgs : List Message) (u : String)
    (env : TurnEnv) (hexit : isExitCommand u = false)
    (hflag : (moderate_text u env.userMod).fst = true) :
    chatbotStep msgs u env =
      ⟨TurnOutcome.continued, msgs,
        Event.promptRead u :: (moderate_text u env.userMod).snd ++
          Event.consolePrint
              "Assistant: [User content flagged by moderation. Not processed.]" ::
            record_flagged_content u env.userRecord⟩ ∧
    (∀ ms, Event.completionRequest ms ∉ (chatbotStep msgs u env).events) := by
  have hstep : chatbotStep msgs u env =
      ⟨TurnOutcome.continued, msgs,
        Event.promptRead u :: (moderate_text u env.userMod).snd ++
          Event.consolePrint
              "Assistant: [User content flagged by moderation. Not processed.]" ::
            record_flagged_content u env.userRecord⟩ := by
    unfold chatbotStep
    rw [hexit]
    simp only [Bool.false_eq_true, if_false, hflag, if_true]
  refine ⟨hstep, fun ms => ?_⟩
  rw [hstep]
  simp [notMem_moderate_completionRequest, notMem_record_completionRequest]

/-- Witness for C4 at the concrete flagged input "bad input". -/
theorem flagged_user_input_blocked_witness :
    (chatbotStep initialMessages "bad input" envUserFlagged).messages =
      initialMessages ∧
    Event.completionRequest [systemPreamble] ∉
      (chatbotStep initialMessages "bad input" envUserFlagged).events := by
  have h := flagged_user_input_blocked initialMessages "bad input"
    envUserFlagged (by decide) (by decide)
  exact ⟨by rw [h.1], h.2 [systemPreamble]⟩

/-- C1: in every turn executed by a scripted session, a flagged user
verdict means the turn issues no completion request at all, and when the
completion call returns a reply whose stripped text gets a flagged verdict,
that text is never displayed to the user as assistant output in that
turn. -/
theorem flagged_text_never_forwarded_or_displayed
    (script : List (String × TurnEnv)) (t : TurnRecord)
    (ht : t ∈ sessionTrace initialMessages script) :
    ((moderate_text t.input t.env.userMod).fst = true →
      ∀ ms, Event.completionRequest ms ∉ t.result.events) ∧
    (∀ raw, t.env.completion = CompletionResult.reply raw →
      (moderate_text (pyStrip raw) t.env.replyMod).fst = true →
      Event.displayReply (pyStrip raw) ∉ t.result.events) := by
  have hres := sessionTrace_result script initialMessages t ht
  obtain ⟨pre, u, env, res⟩ := t
  dsimp only at hres ⊢
  subst hres
  constructor
  · intro hflag ms
    by_cases hexit : isExitCommand u = true
    · simp [chatbotStep, hexit]
    · rw [Bool.not_eq_true] at hexit
      unfold chatbotStep
      rw [hexit]
      simp only [Bool.false_eq_true, if_false, hflag, if_true]
      simp [notMem_moderate_completionRequest, notMem_record_completionRequest]
  · intro raw hcomp hflag2
    by_cases hexit : isExitCommand u = true
    · simp [chatbotStep, hexit]
    · rw [Bool.not_eq_true] at hexit
      unfold chatbotStep
      rw [hexit]
      simp only [Bool.false_eq_true, if_false]
      split
      · simp [notMem_moderate_displayReply, notMem_record_displayReply]
      · rw [hcomp]
        dsimp only
        rw [if_pos hflag2]
        simp [notMem_moderate_displayReply, notMem_record_displayReply]

/-- Witness for C1: a session whose first input is flagged issues no
completion request for the whole history, and a session whose reply is
flagged never displays the stripped reply. -/
theorem flagged_text_never_forwarded_or_displayed_witness :
    Event.completionRequest [systemPreamble] ∉
      (chatbotStep initialMessages "bad input" envUserFlagged).events ∧
    Event.displayReply "bad reply" ∉
      (chatbotStep initialMessages "hello" envReplyFlagged).events := by
  constructor
  · exact (flagged_text_never_forwarded_or_displayed
      [("bad input", envUserFlagged)]
      ⟨initialMessages, "bad input", envUserFlagged,
        chatbotStep initialMessages "bad input" envUserFlagged⟩
      (List.mem_cons_self _ _)).1 (by decide) [systemPreamble]
  · have h := (flagged_text_never_forwarded_or_displayed
      [("hello", envReplyFlagged)]
      ⟨initialMessages, "hello", envReplyFlagged,
        chatbotStep initialMessages "hello" envReplyFlagged⟩
      (List.mem_cons_self _ _)).2 "bad reply" rfl (by decide)
    simpa using h

theorem count_step_generic (p : Event → Bool)
    (hprompt : ∀ s, p (Event.promptRead s) = false)
    (hprint : ∀ s, p (Event.consolePrint s) = false)
    (hdisp : ∀ s, p (Event.displayReply s) = false)
    (hmodr : ∀ s, p (Event.moderationRequest s) = false)
    (hcompl : ∀ ms, p (Event.completionRequest ms) = false)
    (hrec : ∀ text renv, countEvents p (record_flagged_content text renv) = 1)
    (msgs : List Message) (u : String) (env : TurnEnv) :
    countEvents p (chatbotStep msgs u env).events =
      turnFlaggedVerdicts u env := by
  obtain ⟨um, ur, comp, rm, rr⟩ := env
  have hmod : ∀ (text : String) (m : ModResult),
      countEvents p (moderate_text text m).snd = 0 := by
    intro text m
    cases m <;> simp [moderate_text, countEvents_cons, hmodr, hprint,
      countEvents_nil]
  by_cases hexit : isExitCommand u = true
  · simp [chatbotStep, turnFlaggedVerdicts, hexit, countEvents_cons,
      hprompt, hprint, countEvents_nil]
  · rw [Bool.not_eq_true] at hexit
    by_cases hflag : (moderate_text u um).fst = true
    · simp [chatbotStep, turnFlaggedVerdicts, hexit, hflag,
        countEvents_cons, countEvents_append, hprompt, hprint, hmod, hrec]
    · rw [Bool.not_eq_true] at hflag
      rcases comp with raw | e
      · by_cases hflag2 : (moderate_text (pyStrip raw) rm).fst = true
        · simp [chatbotStep, turnFlaggedVerdicts, hexit, hflag, hflag2,
            countEvents_cons, countEvents_append, hprompt, hprint, hcompl,
            hmod, hrec]
        · rw [Bool.not_eq_true] at hflag2
          simp [chatbotStep, turnFlaggedVerdicts, hexit, hflag, hflag2,
            countEvents_cons, countEvents_append, hprompt, hprint, hcompl,
            hdisp, hmod, countEvents_nil]
      · simp [chatbotStep, turnFlaggedVerdicts, hexit, hflag,
          countEvents_cons, countEvents_append, hprompt, hprint, hcompl,
          hmod, countEvents_nil]

theorem count_loop_generic (p : Event → Bool)
    (hstep : ∀ msgs u env, countEvents p (chatbotStep msgs u env).events =
      turnFlaggedVerdicts u env) :
    ∀ (script : List (String × TurnEnv)) (msgs : List Message),
      countEvents p (run_chatbot_loop msgs script).snd.snd =
        ((sessionTrace msgs script).map
          (fun t => turnFlaggedVerdicts t.input t.env)).sum := by
  intro script
  induction script with
  | nil =>
      intro msgs
      simp [run_chatbot_loop, sessionTrace, countEvents_nil]
  | cons hd rest ih =>
      intro msgs
      obtain ⟨u, env⟩ := hd
      simp only [run_chatbot_loop, sessionTrace]
      rcases ho : (chatbotStep msgs u env).outcome with _ | _ | _
      · simp [hstep]
      · simp [countEvents_append, hstep, ih]
      · simp [hstep]

/-- C5: over any scripted session, the number of artifact files written and
the number of publish attempts started (a `git add` staging step) both
equal the number of flagged moderation verdicts produced, and within any
single turn each count equals the number of flagged verdicts of that turn:
one per flagged verdict, none per clean verdict. -/
theorem one_escalation_per_flagged_verdict
    (script : List (String × TurnEnv)) :
    countEvents isArtifactWrite (run_chatbot script).snd.snd =
      sessionFlaggedVerdicts script ∧
    countEvents isStageAttempt (run_chatbot script).snd.snd =
      sessionFlaggedVerdicts script ∧
    (∀ (msgs : List Message) (u : String) (env : TurnEnv),
      countEvents isArtifactWrite (chatbotStep msgs u env).events =
        turnFlaggedVerdicts u env ∧
      countEvents isStageAttempt (chatbotStep msgs u env).events =
        turnFlaggedVerdicts u env) := by
  have hart : ∀ msgs u env, countEvents isArtifactWrite
      (chatbotStep msgs u env).events = turnFlaggedVerdicts u env :=
    count_step_generic isArtifactWrite (fun _ => rfl) (fun _ => rfl)
      (fun _ => rfl) (fun _ => rfl) (fun _ => rfl) count_record_artifact
  have hstage : ∀ msgs u env, countEvents isStageAttempt
      (chatbotStep msgs u env).events = turnFlaggedVerdicts u env :=
    count_step_generic isStageAttempt (fun _ => rfl) (fun _ => rfl)
      (fun _ => rfl) (fun _ => rfl) (fun _ => rfl) count_record_stage
  exact ⟨count_loop_generic isArtifactWrite hart script initialMessages,
    count_loop_generic isStageAttempt hstage script initialMessages,
    fun msgs u env => ⟨hart msgs u env, hstage msgs u env⟩⟩

/-- C3: in every executed turn of every scripted session, History is
extended only as follows: unchanged on an exit command or a flagged user
input; by the clean user message alone when the completion call fails; by
the clean user message and the fixed placeholder, never the reply itself,
when the stripped reply is flagged; and by the clean user message and the
stripped reply when both verdicts are clean. Hence every user or assistant
message enters History only after a clean moderation verdict, a flagged
assistant reply entering only as the placeholder. -/
theorem history_clean_or_placeholder
    (script : List (String × TurnEnv)) (t : TurnRecord)
    (ht : t ∈ sessionTrace initialMessages script) :
    (isExitCommand t.input = true → t.result.messages = t.preMessages) ∧
    (isExitCommand t.input = false →
      (moderate_text t.input t.env.userMod).fst = true →
      t.result.messages = t.preMessages) ∧
    (isExitCommand t.input = false →
      (moderate_text t.input t.env.userMod).fst = false →
      ∀ e, t.env.completion = CompletionResult.raised e →
        t.result.messages = t.preMessages ++ [⟨"user", t.input⟩]) ∧
    (isExitCommand t.input = false →
      (moderate_text t.input t.env.userMod).fst = false →
      ∀ raw, t.env.completion = CompletionResult.reply raw →
        (moderate_text (pyStrip raw) t.env.replyMod).fst = true →
        t.result.messages =
          t.preMessages ++ [⟨"user", t.input⟩, blockedPlaceholder]) ∧
    (isExitCommand t.input = false →
      (moderate_text t.input t.env.userMod).fst = false →
      ∀ raw, t.env.completion = CompletionResult.reply raw →
        (moderate_text (pyStrip raw) t.env.replyMod).fst = false →
        t.result.messages =
          t.preMessages ++ [⟨"user", t.input⟩, ⟨"assistant", pyStrip raw⟩]) := by
  have hres := sessionTrace_result script initialMessages t ht
  obtain ⟨pre, u, env, res⟩ := t
  dsimp only at hres ⊢
  subst hres
  refine ⟨?_, ?_, ?_, ?_, ?_⟩
  · intro hexit
    simp [chatbotStep, hexit]
  · intro hexit hflag
    unfold chatbotStep
    rw [hexit]
    simp only [Bool.false_eq_true, if_false, hflag, if_true]
  · intro hexit hflag e hcomp
    unfold chatbotStep
    rw [hexit]
    simp only [Bool.false_eq_true, if_false, hflag, hcomp]
  · intro hexit hflag raw hcomp hflag2
    unfold chatbotStep
    rw [hexit]
    simp only [Bool.false_eq_true, if_false, hflag, hcomp, hflag2, if_true]
    simp
  · intro hexit hflag raw hcomp hflag2
    unfold chatbotStep
    rw [hexit]
    simp only [Bool.false_eq_true, if_false, hflag, hcomp, hflag2]
    simp

/-- Witness for C3: a turn whose reply is flagged appends the clean user
message and the placeholder only. -/
theorem history_clean_or_placeholder_witness :
    (chatbotStep initialMessages "hello" envReplyFlagged).messages =
      initialMessages ++ [⟨"user", "hello"⟩, blockedPlaceholder] := by
  have h := history_clean_or_placeholder [("hello", envReplyFlagged)]
    ⟨initialMessages, "hello", envReplyFlagged,
      chatbotStep initialMessages "hello" envReplyFlagged⟩
    (List.mem_cons_self _ _)
  have hc := h.2.2.2.1 (by decide) (by decide) "bad reply" rfl (by decide)
  simpa using hc

/-- C6: a `CalledProcessError` at any of the three publish steps aborts
the remaining steps and is reported as a console error line instead of
being raised: the Recorder trace stops at the failing step; moreover any
turn that writes an artifact ends with outcome continued, and after such a
turn the session goes on to the next scripted input. -/
theorem publish_failure_is_contained :
    (∀ (text : String) (renv : RecordEnv) (e : String),
      renv.addRes = GitOutcome.raised e →
      record_flagged_content text renv =
        [Event.artifactWrite (flaggedFileName renv.timestamp)
           (flaggedFileContent renv.timestamp text),
         Event.gitRun ["git", "add", flaggedFileName renv.timestamp] false,
         Event.consolePrint ("Error pushing flagged content file: " ++ e)]) ∧
    (∀ (text : String) (renv : RecordEnv) (e : String),
      renv.addRes = GitOutcome.ok → renv.commitRes = GitOutcome.raised e →
      record_flagged_content text renv =
        [Event.artifactWrite (flaggedFileName renv.timestamp)
           (flaggedFileContent renv.timestamp text),
         Event.gitRun ["git", "add", flaggedFileName renv.timestamp] true,
         Event.gitRun ["git", "commit", "-m",
           "Add flagged content file " ++ flaggedFileName renv.timestamp] false,
         Event.consolePrint ("Error pushing flagged content file: " ++ e)]) ∧
    (∀ (text : String) (renv : RecordEnv) (e : String),
      renv.addRes = GitOutcome.ok → renv.commitRes = GitOutcome.ok →
      renv.pushRes = GitOutcome.raised e →
      record_flagged_content text renv =
        [Event.artifactWrite (flaggedFileName renv.timestamp)
           (flaggedFileContent renv.timestamp text),
         Event.gitRun ["git", "add", flaggedFileName renv.timestamp] true,
         Event.gitRun ["git", "commit", "-m",
           "Add flagged content file " ++ flaggedFileName renv.timestamp] true,
         Event.gitRun ["git", "push", "origin", "main"] false,
         Event.consolePrint ("Error pushing flagged content file: " ++ e)]) ∧
    (∀ (msgs : List Message) (u : String) (env : TurnEnv),
      (∃ n c, Event.artifactWrite n c ∈ (chatbotStep msgs u env).events) →
      (chatbotStep msgs u env).outcome = TurnOutcome.continued) ∧
    (∀ (msgs : List Message) (u : String) (env : TurnEnv)
        (rest : List (String × TurnEnv)),
      (chatbotStep msgs u env).outcome = TurnOutcome.continued →
      sessionTrace msgs ((u, env) :: rest) =
        ⟨msgs, u, env, chatbotStep msgs u env⟩ ::
          sessionTrace (chatbotStep msgs u env).messages rest) := by
  refine ⟨?_, ?_, ?_, ?_, ?_⟩
  · intro text renv e h
    obtain ⟨ts, a, c, pu⟩ := renv
    dsimp only at h
    subst h
    rfl
  · intro text renv e h1 h2
    obtain ⟨ts, a, c, pu⟩ := renv
    dsimp only at h1 h2
    subst h1; subst h2
    rfl
  · intro text renv e h1 h2 h3
    obtain ⟨ts, a, c, pu⟩ := renv
    dsimp only at h1 h2 h3
    subst h1; subst h2; subst h3
    rfl
  · intro msgs u env h
    obtain ⟨n, c, hmem⟩ := h
    obtain ⟨um, ur, comp, rm, rr⟩ := env
    by_cases hexit : isExitCommand u = true
    · simp [chatbotStep, hexit] at hmem
    · rw [Bool.not_eq_true] at hexit
      by_cases hflag : (moderate_text u um).fst = true
      · simp [chatbotStep, hexit, hflag]
      · rw [Bool.not_eq_true] at hflag
        rcases comp with raw | e2
        · by_cases hflag2 : (moderate_text (pyStrip raw) rm).fst = true
          · simp [chatbotStep, hexit, hflag, hflag2]
          · rw [Bool.not_eq_true] at hflag2
            simp [chatbotStep, hexit, hflag, hflag2]
        · simp [chatbotStep, hexit, hflag,
            notMem_moderate_artifactWrite] at hmem
  · intro msgs u env rest h
    simp only [sessionTrace, h]

/-- Witness for C6 at a publish attempt whose staging step raises. -/
theorem publish_failure_is_contained_witness :
    wRecordAddFail.addRes = GitOutcome.raised "exit status 1" ∧
    (record_flagged_content "offending" wRecordAddFail).length = 3 ∧
    (chatbotStep initialMessages "bad input" envPublishFail).outcome =
      TurnOutcome.continued ∧
    sessionTrace initialMessages [("bad input", envPublishFail), ("quit", envClean)] =
      ⟨initialMessages, "bad input", envPublishFail,
          chatbotStep initialMessages "bad input" envPublishFail⟩ ::
        sessionTrace (chatbotStep initialMessages "bad input" envPublishFail).messages
          [("quit", envClean)] := by
  have h := publish_failure_is_contained
  have hcont : (chatbotStep initialMessages "bad input" envPublishFail).outcome =
      TurnOutcome.continued :=
    h.2.2.2.1 initialMessages "bad input" envPublishFail
      ⟨flaggedFileName "20260101_120000",
       flaggedFileContent "20260101_120000" "bad input", by decide⟩
  refine ⟨rfl, ?_, hcont, ?_⟩
  · rw [h.1 "offending" wRecordAddFail "exit status 1" rfl]
    rfl
  · exact h.2.2.2.2 initialMessages "bad input" envPublishFail
      [("quit", envClean)] hcont

/-- C7: when the completion call raises, the turn ends with outcome fatal,
its last event is the printed error, the loop stops there no matter what
the rest of the script holds, and exactly one prompt read happens from that
turn on. -/
theorem completion_failure_ends_session (msgs : List Message) (u : String)
    (env : TurnEnv) (rest : List (String × TurnEnv)) (e : String)
    (hexit : isExitCommand u = false)
    (hclean : (moderate_text u env.userMod).fst = false)
    (hcomp : env.completion = CompletionResult.raised e) :
    (chatbotStep msgs u env).outcome = TurnOutcome.fatal ∧
    (chatbotStep msgs u env).events.getLast? =
      some (Event.consolePrint ("Error: " ++ e)) ∧
    run_chatbot_loop msgs ((u, env) :: rest) =
      (SessionEnd.fatal, (chatbotStep msgs u env).messages,
        (chatbotStep msgs u env).events) ∧
    countEvents isPromptRead
      (run_chatbot_loop msgs ((u, env) :: rest)).snd.snd = 1 := by
  have hstep : chatbotStep msgs u env =
      ⟨TurnOutcome.fatal, msgs ++ [⟨"user", u⟩],
        Event.promptRead u :: (moderate_text u env.userMod).snd ++
          [Event.completionRequest (msgs ++ [⟨"user", u⟩]),
           Event.consolePrint ("Error: " ++ e)]⟩ := by
    unfold chatbotStep
    rw [hexit]
    simp only [Bool.false_eq_true, if_false, hclean, hcomp]
  have hloop : run_chatbot_loop msgs ((u, env) :: rest) =
      (SessionEnd.fatal, (chatbotStep msgs u env).messages,
        (chatbotStep msgs u env).events) := by
    simp only [run_chatbot_loop, hstep]
  refine ⟨by rw [hstep], ?_, hloop, ?_⟩
  · rw [hstep]
    show ((Event.promptRead u :: (moderate_text u env.userMod).snd) ++
        Event.completionRequest (msgs ++ [⟨"user", u⟩]) ::
          [Event.consolePrint ("Error: " ++ e)]).getLast? = _
    rw [List.getLast?_append_cons]
    rfl
  · rw [hloop, hstep]
    simp [countEvents_cons, countEvents_append, count_moderate_prompt,
      isPromptRead, countEvents_nil]

/-- Witness for C7: a completion failure on the first scripted turn with a
second scripted turn that is never reached. -/
theorem completion_failure_ends_session_witness :
    (chatbotStep initialMessages "hello" envCompletionFail).outcome =
      TurnOutcome.fatal ∧
    countEvents isPromptRead
      (run_chatbot_loop initialMessages
        [("hello", envCompletionFail), ("ignored", envClean)]).snd.snd = 1 := by
  have h := completion_failure_ends_session initialMessages "hello"
    envCompletionFail [("ignored", envClean)] "boom" (by decide) (by decide) rfl
  exact ⟨h.1, h.2.2.2⟩

/-- C10: every reply returned by the completion service is stripped of
leading and trailing whitespace first, and it is the stripped text, not the
raw reply, that is moderated, displayed when clean, appended to History
when clean, and recorded when flagged. -/
theorem reply_stripped_before_use (msgs : List Message) (u : String)
    (env : TurnEnv) (raw : String)
    (hexit : isExitCommand u = false)
    (hclean : (moderate_text u env.userMod).fst = false)
    (hcomp : env.completion = CompletionResult.reply raw) :
    Event.moderationRequest (pyStrip raw) ∈ (chatbotStep msgs u env).events ∧
    ((moderate_text (pyStrip raw) env.replyMod).fst = false →
      chatbotStep msgs u env =
        ⟨TurnOutcome.continued,
          msgs ++ [⟨"user", u⟩] ++ [⟨"assistant", pyStrip raw⟩],
          Event.promptRead u :: (moderate_text u env.userMod).snd ++
            Event.completionRequest (msgs ++ [⟨"user", u⟩]) ::
              (moderate_text (pyStrip raw) env.replyMod).snd ++
                [Event.displayReply (pyStrip raw)]⟩) ∧
    ((moderate_text (pyStrip raw) env.replyMod).fst = true →
      chatbotStep msgs u env =
        ⟨TurnOutcome.continued,
          msgs ++ [⟨"user", u⟩] ++ [blockedPlaceholder],
          Event.promptRead u :: (moderate_text u env.userMod).snd ++
            Event.completionRequest (msgs ++ [⟨"user", u⟩]) ::
              (moderate_text (pyStrip raw) env.replyMod).snd ++
                Event.consolePrint
                    "Assistant: [Model output flagged by moderation. Not displayed.]" ::
                  record_flagged_content (pyStrip raw) env.replyRecord⟩) := by
  have hfl : ∀ b, (moderate_text (pyStrip raw) env.replyMod).fst = b →
      chatbotStep msgs u env = (if b then
        ⟨TurnOutcome.continued,
          msgs ++ [⟨"user", u⟩] ++ [blockedPlaceholder],
          Event.promptRead u :: (moderate_text u env.userMod).snd ++
            Event.completionRequest (msgs ++ [⟨"user", u⟩]) ::
              (moderate_text (pyStrip raw) env.replyMod).snd ++
                Event.consolePrint
                    "Assistant: [Model output flagged by moderation. Not displayed.]" ::
                  record_flagged_content (pyStrip raw) env.replyRecord⟩
        else
        ⟨TurnOutcome.continued,
          msgs ++ [⟨"user", u⟩] ++ [⟨"assistant", pyStrip raw⟩],
          Event.promptRead u :: (moderate_text u env.userMod).snd ++
            Event.completionRequest (msgs ++ [⟨"user", u⟩]) ::
              (moderate_text (pyStrip raw) env.replyMod).snd ++
                [Event.displayReply (pyStrip raw)]⟩) := by
    intro b hb
    unfold chatbotStep
    rw [hexit]
    simp only [Bool.false_eq_true, if_false, hclean, hcomp]
    cases b
    · simp only [hb, Bool.false_eq_true, if_false]
    · simp only [hb, if_true]
  refine ⟨?_, ?_, ?_⟩
  · rcases hb : (moderate_text (pyStrip raw) env.replyMod).fst with _ | _ <;>
      rw [hfl _ hb] <;> simp [mem_moderate_self]
  · intro hb
    rw [hfl false hb]
    rfl
  · intro hb
    rw [hfl true hb]
    rfl

/-- Witness for C10: the clean raw reply `"  a reply  "` is stripped to
`"a reply"`, which is what gets moderated and appended. -/
theorem reply_stripped_before_use_witness :
    pyStrip "  a reply  " = "a reply" ∧
    Event.moderationRequest "a reply" ∈
      (chatbotStep initialMessages "hello" envClean).events ∧
    (chatbotStep initialMessages "hello" envClean).messages =
      initialMessages ++ [⟨"user", "hello"⟩] ++ [⟨"assistant", "a reply"⟩] := by
  have h := reply_stripped_before_use initialMessages "hello" envClean
    "  a reply  " (by decide) (by decide) rfl
  have hs : pyStrip "  a reply  " = "a reply" := by decide
  refine ⟨hs, ?_, ?_⟩
  · have hm := h.1
    rw [hs] at hm
    exact hm
  · have he := h.2.1 (by decide)
    rw [he]
    simp [hs]

/-- Witness for C8 at the concrete inputs "QUIT" and "hello". -/
theorem exit_keyword_ends_session_witness :
    isExitCommand "QUIT" = true ∧
    chatbotStep initialMessages "QUIT" envClean =
      ⟨TurnOutcome.exited, initialMessages,
        [Event.promptRead "QUIT", Event.consolePrint "Assistant: Goodbye!"]⟩ ∧
    isExitCommand "hello" = false ∧
    Event.moderationRequest "hello" ∈
      (chatbotStep initialMessages "hello" envClean).events :=
  ⟨by decide,
   (exit_keyword_ends_session initialMessages "QUIT" envClean).1 (by decide),
   by decide,
   (exit_keyword_ends_session initialMessages "hello" envClean).2 (by decide)⟩

end Chatbot
